import Mathlib

/-
Verification of the telco-churn dashboard (src/dashboard.py) against its
natural-language specification.  The Python source is shallowly embedded:
a pandas DataFrame becomes a `Table` (a list of rows together with flags
recording which churn-related columns are present), the Streamlit script
becomes the pure function `renderDashboard`, and the numeric metrics are
computed over `ℚ`.
-/

namespace TelcoChurn

/-- One row of the loaded table.  The fields mirror the CSV columns used by
the dashboard: `Contract`, `InternetService`, `tenure_bucket`, the binary
churn indicator `churn_label` and the textual `Churn` column.  When the
corresponding column is absent from the table (see `Table`), the field value
is meaningless padding. -/
structure Row where
  Contract : String
  InternetService : String
  tenure_bucket : String
  churn_label : Int
  Churn : String
deriving DecidableEq, Repr

/-- An in-memory table as parsed from the CSV.  `hasChurnLabel` and
`hasChurn` record whether the `churn_label` / `Churn` columns are present
(`"churn_label" in df.columns`, `"Churn" in df.columns` in the source). -/
structure Table where
  hasChurnLabel : Bool
  hasChurn : Bool
  rows : List Row
deriving DecidableEq, Repr

/-- First error message emitted when the data file is missing. -/
def err_file_not_found_1 : String :=
  "--- ERROR: Data file not found at DATA_FILE ---"

/-- Second error message emitted when the data file is missing. -/
def err_file_not_found_2 : String :=
  "Please make sure cleaned_telco_customers.csv is in a data folder next to this script."

/-- Error message emitted when neither churn column is present. -/
def err_missing_columns : String :=
  "Neither churn_label nor Churn column found in dataset. Please re-run the cleaning pipeline."

/-- The page title rendered by `st.title`. -/
def mainTitle : String := "Telco Customer Churn Dashboard"

/-- The lambda in `df["Churn"].apply(lambda x: 1 if x == "Yes" else 0)`,
applied row-wise: it fills the `churn_label` field from the `Churn` field. -/
def derive_churn_label (r : Row) : Row :=
  { r with churn_label := if r.Churn = "Yes" then 1 else 0 }

/-- Embedding of `load_data`.  The argument is `none` when the data file is
missing (`DATA_FILE.is_file()` false) and `some df` when the CSV parses to
`df`.  The result is the returned table (`None` becomes `none`) paired with
the list of `st.error` messages emitted, in order. -/
def load_data (file : Option Table) : Option Table × List String :=
  match file with
  | none => (none, [err_file_not_found_1, err_file_not_found_2])
  | some df =>
    if df.hasChurnLabel then
      (some df, [])
    else if df.hasChurn then
      (some { df with
                hasChurnLabel := true
                rows := df.rows.map derive_churn_label }, [])
    else
      (none, [err_missing_columns])

/-- Embedding of the boolean-mask filter
`df[(df['Contract'].isin(contract_filter)) & (df['InternetService'].isin(internet_filter))]`:
keep exactly the rows whose `Contract` is in the selected contract list and
whose `InternetService` is in the selected internet list, in source order. -/
def filtered_df (df : Table) (contract_filter internet_filter : List String) : Table :=
  { df with
      rows := df.rows.filter fun r =>
        contract_filter.contains r.Contract && internet_filter.contains r.InternetService }

/-- Arithmetic mean of an integer column, over `ℚ` (pandas `Series.mean`). -/
def colMean (l : List Int) : ℚ :=
  (l.sum : ℚ) / (l.length : ℚ)

/-- `df['churn_label'].mean()` over the full table. -/
def overall_churn_rate (df : Table) : ℚ :=
  colMean (df.rows.map fun r => r.churn_label)

/-- `filtered_df['churn_label'].mean() if not filtered_df.empty else 0.0`. -/
def segment_churn_rate (fdf : Table) : ℚ :=
  if fdf.rows.isEmpty then 0 else colMean (fdf.rows.map fun r => r.churn_label)

/-- Helper for `uniqueList`: drop values already seen. -/
def uniqueAux (seen : List String) : List String → List String
  | [] => []
  | x :: xs => if seen.contains x then uniqueAux seen xs else x :: uniqueAux (x :: seen) xs

/-- pandas `Series.unique()`: distinct values in order of first occurrence.
Used to populate the multiselect options and their defaults. -/
def uniqueList (l : List String) : List String :=
  uniqueAux [] l

/-- The three KPI values and the segment size shown in the metrics row. -/
structure KeyMetrics where
  total_customers : Nat
  overallRate : ℚ
  segmentRate : ℚ
  delta : ℚ
deriving DecidableEq, Repr

/-- The KPI computation of the script body: segment size, overall rate,
segment rate, and the signed delta `segment_churn_rate - overall_churn_rate`. -/
def computeMetrics (df : Table) (contract_filter internet_filter : List String) : KeyMetrics :=
  let fdf := filtered_df df contract_filter internet_filter
  { total_customers := fdf.rows.length
    overallRate := overall_churn_rate df
    segmentRate := segment_churn_rate fdf
    delta := segment_churn_rate fdf - overall_churn_rate df }

/-- One rendered Streamlit element, in page order. -/
inductive UIElement where
  | errorMsg (msg : String)
  | pageTitle (text : String)
  | sidebarHeader (text : String)
  | multiselect (label : String) (options selected : List String)
  | sectionHeader (text : String)
  | metric (label : String) (value : ℚ) (delta : Option ℚ)
  | markdown (text : String)
  | chart (chartTitle xcol : String) (data : List Row)
  | dataframe (data : List Row)
deriving DecidableEq, Repr

/-- Whether an element is an `st.error` message. -/
def isErrorMsg : UIElement → Bool
  | UIElement.errorMsg _ => true
  | _ => false

/-- Embedding of the whole script run: `load_data`, then `st.title`, then
`st.stop()` when no table was returned, otherwise the sidebar filters, the
metrics row, the two charts and the 10-row preview.  `contract_filter` and
`internet_filter` are the multiselect states (their default is the list of
distinct observed values). -/
def renderDashboard (file : Option Table)
    (contract_filter internet_filter : List String) : List UIElement :=
  let res := load_data file
  let errs := res.2.map UIElement.errorMsg
  match res.1 with
  | none => errs ++ [UIElement.pageTitle mainTitle]
  | some df =>
    let contract_options := uniqueList (df.rows.map fun r => r.Contract)
    let internet_options := uniqueList (df.rows.map fun r => r.InternetService)
    let fdf := filtered_df df contract_filter internet_filter
    let m := computeMetrics df contract_filter internet_filter
    errs ++
      [UIElement.pageTitle mainTitle,
       UIElement.sidebarHeader "Customer Filters",
       UIElement.multiselect "Select Contract Type" contract_options contract_filter,
       UIElement.multiselect "Select Internet Service" internet_options internet_filter,
       UIElement.sectionHeader "Key Metrics",
       UIElement.metric "Total Customers in Segment" (m.total_customers : ℚ) none,
       UIElement.metric "Overall Churn Rate" m.overallRate none,
       UIElement.metric "Segment Churn Rate" m.segmentRate (some m.delta),
       UIElement.markdown "---",
       UIElement.sectionHeader "Visual Analysis",
       UIElement.chart "Churn by Contract Type" "Contract" fdf.rows,
       UIElement.chart "Churn by Tenure" "tenure_bucket" fdf.rows,
       UIElement.sectionHeader "Filtered Customer Data",
       UIElement.dataframe (fdf.rows.take 10)]

/-- Concrete table for the worked scenario in the spec (section 8): three
rows, `Contract` = Month-to-month, Month-to-month, Two year and `Churn` =
Yes, No, No; no `churn_label` column yet. -/
def scenarioRaw : Table where
  hasChurnLabel := false
  hasChurn := true
  rows :=
    [{ Contract := "Month-to-month", InternetService := "DSL",
       tenure_bucket := "0-1 Year", churn_label := 0, Churn := "Yes" },
     { Contract := "Month-to-month", InternetService := "Fiber optic",
       tenure_bucket := "1-2 Years", churn_label := 0, Churn := "No" },
     { Contract := "Two year", InternetService := "DSL",
       tenure_bucket := "4+ Years", churn_label := 0, Churn := "No" }]

/-- The table `load_data` produces from `scenarioRaw`: same rows with the
derived `churn_label` column 1, 0, 0. -/
def scenarioLoaded : Table where
  hasChurnLabel := true
  hasChurn := true
  rows :=
    [{ Contract := "Month-to-month", InternetService := "DSL",
       tenure_bucket := "0-1 Year", churn_label := 1, Churn := "Yes" },
     { Contract := "Month-to-month", InternetService := "Fiber optic",
       tenure_bucket := "1-2 Years", churn_label := 0, Churn := "No" },
     { Contract := "Two year", InternetService := "DSL",
       tenure_bucket := "4+ Years", churn_label := 0, Churn := "No" }]

/-- A small table that already carries a (binary) `churn_label` column. -/
def wBinary : Table where
  hasChurnLabel := true
  hasChurn := false
  rows :=
    [{ Contract := "One year", InternetService := "No",
       tenure_bucket := "2-4 Years", churn_label := 1, Churn := "" },
     { Contract := "One year", InternetService := "DSL",
       tenure_bucket := "2-4 Years", churn_label := 0, Churn := "" }]

/-- A table with a pre-existing `churn_label` column whose value 7 is not
binary and disagrees with the also-present `Churn` column. -/
def wPre : Table where
  hasChurnLabel := true
  hasChurn := true
  rows :=
    [{ Contract := "Two year", InternetService := "DSL",
       tenure_bucket := "4+ Years", churn_label := 7, Churn := "No" }]

/-- The subset of `scenarioLoaded` selected by contract Month-to-month with
the internet selection covering all rows. -/
def scenarioFiltered : Table where
  hasChurnLabel := true
  hasChurn := true
  rows :=
    [{ Contract := "Month-to-month", InternetService := "DSL",
       tenure_bucket := "0-1 Year", churn_label := 1, Churn := "Yes" },
     { Contract := "Month-to-month", InternetService := "Fiber optic",
       tenure_bucket := "1-2 Years", churn_label := 0, Churn := "No" }]

/-! ## Helper lemmas -/

theorem mem_uniqueAux (a : String) :
    ∀ (l seen : List String), a ∈ uniqueAux seen l ↔ a ∈ l ∧ a ∉ seen := by
  intro l
  induction l with
  | nil => intro seen; simp [uniqueAux]
  | cons x xs ih =>
    intro seen
    have hc : seen.contains x = true ↔ x ∈ seen := List.elem_iff
    by_cases hx : x ∈ seen
    · rw [uniqueAux, if_pos (hc.mpr hx), ih]
      simp only [List.mem_cons]
      constructor
      · exact fun h => ⟨Or.inr h.1, h.2⟩
      · rintro ⟨h1 | h1, h2⟩
        · exact absurd (h1 ▸ hx) h2
        · exact ⟨h1, h2⟩
    · rw [uniqueAux, if_neg (fun hcontra => hx (hc.mp hcontra))]
      simp only [List.mem_cons, ih, not_or]
      constructor
      · rintro (rfl | ⟨h1, h2, h3⟩)
        · exact ⟨Or.inl rfl, hx⟩
        · exact ⟨Or.inr h1, h3⟩
      · rintro ⟨h1 | h1, h2⟩
        · exact Or.inl h1
        · by_cases hax : a = x
          · exact Or.inl hax
          · exact Or.inr ⟨h1, hax, h2⟩

theorem mem_uniqueList (a : String) (l : List String) :
    a ∈ uniqueList l ↔ a ∈ l := by
  rw [uniqueList, mem_uniqueAux]
  simp

theorem sum_bounds_of_binary (l : List Int) (h : ∀ x ∈ l, x = 0 ∨ x = 1) :
    0 ≤ l.sum ∧ l.sum ≤ (l.length : Int) := by
  induction l with
  | nil => simp
  | cons x xs ih =>
    have hx := h x (List.mem_cons_self x xs)
    obtain ⟨ih1, ih2⟩ := ih fun y hy => h y (List.mem_cons_of_mem x hy)
    simp only [List.sum_cons, List.length_cons]
    push_cast
    rcases hx with rfl | rfl <;> constructor <;> omega

/-! ## Claim theorems -/

/-- C2: the filtered subset `filtered_df` keeps the source row order (it is
a sublist of the full table) and contains a row exactly when the row is in
the source table, its `Contract` is in the selected contract list and its
`InternetService` is in the selected internet list; equal selections give
equal subsets. -/
theorem filter_engine_spec (df : Table) (contract_filter internet_filter : List String) :
    ((filtered_df df contract_filter internet_filter).rows.Sublist df.rows)
    ∧ (∀ r : Row, r ∈ (filtered_df df contract_filter internet_filter).rows ↔
        r ∈ df.rows ∧ r.Contract ∈ contract_filter ∧ r.InternetService ∈ internet_filter)
    ∧ (∀ c2 i2 : List String, contract_filter = c2 → internet_filter = i2 →
        filtered_df df contract_filter internet_filter = filtered_df df c2 i2) := by
  refine ⟨List.filter_sublist _, fun r => ?_, fun c2 i2 hc hi => by rw [hc, hi]⟩
  simp only [filtered_df, List.mem_filter, Bool.and_eq_true, List.elem_iff]

/-- C2 witness: the filter applied to a concrete table and selection. -/
theorem filter_engine_spec_witness :
    (filtered_df wBinary ["One year"] ["DSL"]).rows.Sublist wBinary.rows :=
  (filter_engine_spec wBinary ["One year"] ["DSL"]).1

/-- C4: an empty contract selection or an empty internet selection gives an
empty filtered subset, and the segment churn rate of that subset is 0. -/
theorem empty_selection_spec (df : Table) (contract_filter internet_filter : List String)
    (h : contract_filter = [] ∨ internet_filter = []) :
    (filtered_df df contract_filter internet_filter).rows = []
    ∧ segment_churn_rate (filtered_df df contract_filter internet_filter) = 0 := by
  have hrows : (filtered_df df contract_filter internet_filter).rows = [] := by
    simp only [filtered_df]
    rw [List.filter_eq_nil_iff]
    intro r hr
    rcases h with rfl | rfl <;> simp
  exact ⟨hrows, by simp [segment_churn_rate, hrows]⟩

/-- C4 witness: empty contract selection on a concrete table. -/
theorem empty_selection_spec_witness :
    (filtered_df wBinary [] ["DSL"]).rows = []
    ∧ segment_churn_rate (filtered_df wBinary [] ["DSL"]) = 0 :=
  empty_selection_spec wBinary [] ["DSL"] (Or.inl rfl)

/-- C5: selecting all distinct `Contract` values and all distinct
`InternetService` values (the multiselect defaults) filters nothing: the
filtered subset is the full table. -/
theorem full_selection_identity (df : Table) :
    filtered_df df (uniqueList (df.rows.map fun r => r.Contract))
      (uniqueList (df.rows.map fun r => r.InternetService)) = df := by
  cases df with
  | mk hcl hc rows =>
    simp only [filtered_df, Table.mk.injEq, true_and]
    apply List.filter_eq_self.mpr
    intro r hr
    rw [Bool.and_eq_true, List.elem_iff, List.elem_iff, mem_uniqueList, mem_uniqueList]
    exact ⟨List.mem_map_of_mem _ hr, List.mem_map_of_mem _ hr⟩

/-- C8: the overall churn rate reported in the metrics row is computed from
the full table only, so it is identical for any two filter selections. -/
theorem overall_rate_filter_independent (df : Table) (c1 i1 c2 i2 : List String) :
    (computeMetrics df c1 i1).overallRate = (computeMetrics df c2 i2).overallRate := rfl

/-- C10: when the parsed table already has a `churn_label` column,
`load_data` returns it exactly as parsed, with no error, regardless of the
`churn_label` values and of any `Churn` column. -/
theorem preexisting_label_as_is (df : Table) (h : df.hasChurnLabel = true) :
    load_data (some df) = (some df, []) := by
  simp [load_data, h]

/-- C10 witness: a table whose pre-existing `churn_label` value 7 is not
binary and contradicts its `Churn` column is still returned unchanged. -/
theorem preexisting_label_as_is_witness : load_data (some wPre) = (some wPre, []) :=
  preexisting_label_as_is wPre rfl

/-- C1: if the parsed table lacks a `churn_label` column but has a `Churn`
column, `load_data` returns a table with a `churn_label` column in which
each row gets 1 when that row's `Churn` equals "Yes" and 0 otherwise, all
other columns of the row unchanged. -/
theorem churn_label_derivation (df : Table)
    (h1 : df.hasChurnLabel = false) (h2 : df.hasChurn = true) :
    ∃ df2, (load_data (some df)).1 = some df2 ∧ df2.hasChurnLabel = true ∧
      df2.rows.length = df.rows.length ∧
      ∀ (j : ℕ) (r r2 : Row), df.rows[j]? = some r → df2.rows[j]? = some r2 →
        (r2.churn_label = if r.Churn = "Yes" then 1 else 0)
        ∧ r2.Contract = r.Contract ∧ r2.InternetService = r.InternetService
        ∧ r2.tenure_bucket = r.tenure_bucket ∧ r2.Churn = r.Churn := by
  refine ⟨Table.mk true df.hasChurn (df.rows.map derive_churn_label),
    by simp [load_data, h1, h2], rfl, by simp, ?_⟩
  intro j r r2 hr hr2
  simp only [List.getElem?_map, hr, Option.map_some] at hr2
  cases hr2
  simp [derive_churn_label]

/-- C1 witness: the derivation applied to the concrete scenario table. -/
theorem churn_label_derivation_witness :
    scenarioRaw.hasChurnLabel = false ∧ scenarioRaw.hasChurn = true ∧
    ∃ df2, (load_data (some scenarioRaw)).1 = some df2 ∧ df2.hasChurnLabel = true := by
  refine ⟨rfl, rfl, ?_⟩
  obtain ⟨df2, ha, hb, -, -⟩ := churn_label_derivation scenarioRaw rfl rfl
  exact ⟨df2, ha, hb⟩

/-- C3: `load_data` yields no table exactly when the file is missing or the
parsed table has neither a `churn_label` nor a `Churn` column; in that case
it emits at least one error message, and the script halts right after the
title: nothing else is rendered. -/
theorem load_failure_spec (file : Option Table) :
    ((load_data file).1 = none ↔
        file = none ∨ ∃ df, file = some df ∧ df.hasChurnLabel = false ∧ df.hasChurn = false)
    ∧ ((load_data file).1 = none → (load_data file).2 ≠ [])
    ∧ (∀ contract_filter internet_filter : List String, (load_data file).1 = none →
        renderDashboard file contract_filter internet_filter
          = (load_data file).2.map UIElement.errorMsg ++ [UIElement.pageTitle mainTitle]) := by
  match file with
  | none => exact ⟨by simp [load_data], by simp [load_data], fun c i h => rfl⟩
  | some df =>
    cases hcl : df.hasChurnLabel with
    | true =>
      refine ⟨?_, ?_, ?_⟩
      · simp only [load_data, hcl, if_true]
        simp [hcl]
      · simp [load_data, hcl]
      · intro c i h
        rw [load_data] at h
        simp [hcl] at h
    | false =>
      cases hc : df.hasChurn with
      | true =>
        refine ⟨?_, ?_, ?_⟩
        · simp only [load_data, hcl, hc]
          simp [hcl, hc]
        · simp [load_data, hcl, hc]
        · intro c i h
          rw [load_data] at h
          simp [hcl, hc] at h
      | false =>
        refine ⟨?_, ?_, ?_⟩
        · simp only [load_data, hcl, hc]
          simp [hcl, hc]
        · simp [load_data, hcl, hc]
        · intro c i h
          simp [renderDashboard, load_data, hcl, hc]

/-- C3 witness: a missing file yields no table and the rendered output is
the two error messages followed by the title. -/
theorem load_failure_spec_witness :
    (load_data (none : Option Table)).1 = none
    ∧ renderDashboard (none : Option Table) [] []
        = (load_data (none : Option Table)).2.map UIElement.errorMsg
          ++ [UIElement.pageTitle mainTitle] := by
  have h := load_failure_spec (none : Option Table)
  have h1 : (load_data (none : Option Table)).1 = none := h.1.mpr (Or.inl rfl)
  exact ⟨h1, h.2.2 [] [] h1⟩

/-- C6: over a nonempty table whose `churn_label` column is binary (each
value 0 or 1), the overall churn rate lies between 0 and 1. -/
theorem overall_rate_bounds (df : Table) (hne : df.rows ≠ [])
    (hbin : ∀ r ∈ df.rows, r.churn_label = 0 ∨ r.churn_label = 1) :
    0 ≤ overall_churn_rate df ∧ overall_churn_rate df ≤ 1 := by
  have hb : ∀ x ∈ df.rows.map (fun r => r.churn_label), x = 0 ∨ x = 1 := by
    intro x hx
    obtain ⟨r, hr, rfl⟩ := List.mem_map.mp hx
    exact hbin r hr
  obtain ⟨hs0, hs1⟩ := sum_bounds_of_binary _ hb
  have hlen : 0 < (df.rows.map fun r => r.churn_label).length := by
    rw [List.length_map]
    exact List.length_pos.mpr hne
  rw [overall_churn_rate, colMean]
  constructor
  · apply div_nonneg
    · exact_mod_cast hs0
    · exact_mod_cast Nat.zero_le _
  · rw [div_le_one (by exact_mod_cast hlen)]
    exact_mod_cast hs1

/-- C6 witness: the bounds at a concrete binary two-row table. -/
theorem overall_rate_bounds_witness :
    0 ≤ overall_churn_rate wBinary ∧ overall_churn_rate wBinary ≤ 1 :=
  overall_rate_bounds wBinary (by simp [wBinary]) (by decide)

/-- C7: on the three-row scenario table (Contract Month-to-month,
Month-to-month, Two year; Churn Yes, No, No) loading derives the labels,
the overall churn rate is 1/3, filtering to contract Month-to-month with
the internet selection covering all rows gives a 2-row subset with segment
churn rate 1/2, and the delta is 1/6. -/
theorem worked_scenario :
    (load_data (some scenarioRaw)).1 = some scenarioLoaded
    ∧ overall_churn_rate scenarioLoaded = 1/3
    ∧ (filtered_df scenarioLoaded ["Month-to-month"]
        (uniqueList (scenarioLoaded.rows.map fun r => r.InternetService))).rows.length = 2
    ∧ segment_churn_rate (filtered_df scenarioLoaded ["Month-to-month"]
        (uniqueList (scenarioLoaded.rows.map fun r => r.InternetService))) = 1/2
    ∧ segment_churn_rate (filtered_df scenarioLoaded ["Month-to-month"]
        (uniqueList (scenarioLoaded.rows.map fun r => r.InternetService)))
      - overall_churn_rate scenarioLoaded = 1/6 := by
  have hf : filtered_df scenarioLoaded ["Month-to-month"]
      (uniqueList (scenarioLoaded.rows.map fun r => r.InternetService)) = scenarioFiltered := by
    rfl
  have hseg : segment_churn_rate scenarioFiltered = 1/2 := by
    norm_num [segment_churn_rate, colMean, scenarioFiltered]
  have hov : overall_churn_rate scenarioLoaded = 1/3 := by
    norm_num [overall_churn_rate, colMean, scenarioLoaded]
  refine ⟨rfl, hov, by rw [hf]; rfl, by rw [hf, hseg], ?_⟩
  rw [hf, hseg, hov]
  norm_num

/-- C9 counterexample: when the data file is missing, loading fails but the
rendered output still contains the page title, which is not an error
message — the script renders the title before `st.stop()`. -/
theorem no_partial_rendering_cex :
    (load_data (none : Option Table)).1 = none
    ∧ UIElement.pageTitle mainTitle ∈ renderDashboard (none : Option Table) [] []
    ∧ isErrorMsg (UIElement.pageTitle mainTitle) = false := by
  refine ⟨rfl, ?_, rfl⟩
  show UIElement.pageTitle mainTitle ∈
    [UIElement.errorMsg err_file_not_found_1, UIElement.errorMsg err_file_not_found_2,
     UIElement.pageTitle mainTitle]
  simp

/-- C9 amended: whenever loading fails, the rendered output is exactly the
load error messages followed by the page title — nothing of the dashboard
proper (filters, metrics, charts, preview) is rendered after the halt. -/
theorem halt_renders_errors_and_title (file : Option Table)
    (contract_filter internet_filter : List String)
    (h : (load_data file).1 = none) :
    renderDashboard file contract_filter internet_filter
      = (load_data file).2.map UIElement.errorMsg ++ [UIElement.pageTitle mainTitle] := by
  match file with
  | none => rfl
  | some df =>
    cases hcl : df.hasChurnLabel with
    | true =>
      rw [load_data] at h
      simp [hcl] at h
    | false =>
      cases hc : df.hasChurn with
      | true =>
        rw [load_data] at h
        simp [hcl, hc] at h
      | false =>
        simp [renderDashboard, load_data, hcl, hc]

/-- C9 amended witness: the missing-file run renders the two error messages
and then the title, nothing else. -/
theorem halt_renders_errors_and_title_witness :
    renderDashboard (none : Option Table) [] []
      = (load_data (none : Option Table)).2.map UIElement.errorMsg
        ++ [UIElement.pageTitle mainTitle] :=
  halt_renders_errors_and_title none [] [] rfl

end TelcoChurn
